import Mathlib

/-!
# Verification of the aria-form contact form core

Shallow embedding of the accessible contact-form repository:

* the field validator `validateForm` (src/components/AccessibleForm.tsx,
  `validateForm`, lines 49-82),
* the form state store update `handleInputChange` (same file, lines 84-91),
* the submission orchestrator `handleSubmit` (same file, lines 93-191),
* the accessible dropdown state machine `selectStep` (CustomSelect,
  src/unnamed/part_002, `handleToggle` / `handleSelect` / `handleKeyDown`).

JavaScript strings are modelled as `List Char`; JS objects used as string
maps (`FormErrors`) are modelled as association lists in insertion order,
which matches JS own-property enumeration order for string keys.
-/

namespace AriaForm

/-- The characters matched by the JavaScript regex class `\s`
(ECMAScript WhiteSpace plus LineTerminator): the spec calls this
class "space". -/
def jsWhitespace (c : Char) : Bool :=
  let n := c.val
  n = 0x09 || n = 0x0A || n = 0x0B || n = 0x0C || n = 0x0D || n = 0x20 ||
  n = 0xA0 || n = 0x1680 || (0x2000 ≤ n && n ≤ 0x200A) ||
  n = 0x2028 || n = 0x2029 || n = 0x202F || n = 0x205F || n = 0x3000 || n = 0xFEFF

/-- JavaScript `String.prototype.trim`: strip leading and trailing
whitespace characters. -/
def jsTrim (s : List Char) : List Char :=
  ((s.dropWhile jsWhitespace).reverse.dropWhile jsWhitespace).reverse

/-- A character admitted by the regex class `[^\s@]` used by the email
pattern: anything that is neither whitespace nor `@`. -/
def isEmailChar (c : Char) : Bool :=
  !(jsWhitespace c) && !(c = '@')

/-- Does the list have a `.` at a position that is neither the first nor
the last index?  Used to decide the `[^\s@]+\.[^\s@]+` suffix of the
email regex (note `.` itself belongs to the class `[^\s@]`). -/
def hasInnerDot (d : List Char) : Bool :=
  (List.range d.length).any fun i =>
    d.getD i ' ' = '.' && i ≠ 0 && i + 1 ≠ d.length

/-- The JavaScript test `/^[^\s@]+@[^\s@]+\.[^\s@]+$/.test s`
(AccessibleForm.tsx line 62).  A string matches iff it splits as
`A ++ "@" ++ D` where `A` is a non-empty run of `[^\s@]` characters and
`D` is a non-empty run of `[^\s@]` characters containing a `.` that is
neither its first nor its last character.  Since `@` is excluded from
the class, `List.splitOn '@'` yields exactly two parts on any match. -/
def emailTest (s : List Char) : Bool :=
  match s.splitOn '@' with
  | [a, d] => !a.isEmpty && a.all isEmailChar && !d.isEmpty &&
              d.all isEmailChar && hasInnerDot d
  | _ => false

/-- A character admitted by the phone regex class `[\d\s\-\+\(\)]`
(AccessibleForm.tsx line 76). -/
def isPhoneChar (c : Char) : Bool :=
  c.isDigit || jsWhitespace c || c = '-' || c = '+' || c = '(' || c = ')'

/-- The `FormData` record of AccessibleForm.tsx (lines 8-18). -/
structure FormData where
  firstName : List Char
  lastName : List Char
  email : List Char
  phone : List Char
  subject : List Char
  message : List Char
  newsletter : Bool
  contactMethod : List Char
  urgency : List Char
  deriving DecidableEq, Repr

/-- The initial / reset `FormData` (AccessibleForm.tsx lines 25-35 and
169-179). -/
def defaultFormData : FormData :=
  { firstName := [], lastName := [], email := [], phone := [],
    subject := [], message := [], newsletter := false,
    contactMethod := "email".data, urgency := "medium".data }

/-- `validateForm` of AccessibleForm.tsx (lines 49-82): builds the
`FormErrors` object by inserting entries in source order
(firstName, lastName, email, subject, message, phone).  The association
list records JS object insertion order. -/
def validateForm (fd : FormData) : List (String × String) :=
  (if (jsTrim fd.firstName).isEmpty then [("firstName", "First name is required")] else [])
  ++ (if (jsTrim fd.lastName).isEmpty then [("lastName", "Last name is required")] else [])
  ++ (if (jsTrim fd.email).isEmpty then [("email", "Email address is required")]
      else if emailTest fd.email then [] else [("email", "Please enter a valid email address")])
  ++ (if (jsTrim fd.subject).isEmpty then [("subject", "Subject is required")] else [])
  ++ (if (jsTrim fd.message).isEmpty then [("message", "Message is required")]
      else if (jsTrim fd.message).length < 10 then [("message", "Message must be at least 10 characters long")] else [])
  ++ (if fd.phone.isEmpty then []
      else if fd.phone.all isPhoneChar then [] else [("phone", "Please enter a valid phone number")])

/-- The six field keys in the order `validateForm` inserts them. -/
def codeFieldOrder : List String :=
  ["firstName", "lastName", "email", "subject", "message", "phone"]

/-- Whether `validateForm` assigns an error entry to the given key:
a direct reading of the six conditions of `validateForm`. -/
def fieldFails (fd : FormData) : String → Bool
  | "firstName" => (jsTrim fd.firstName).isEmpty
  | "lastName" => (jsTrim fd.lastName).isEmpty
  | "email" => (jsTrim fd.email).isEmpty || !(emailTest fd.email)
  | "subject" => (jsTrim fd.subject).isEmpty
  | "message" => (jsTrim fd.message).isEmpty || decide ((jsTrim fd.message).length < 10)
  | "phone" => !(fd.phone.isEmpty) && !(fd.phone.all isPhoneChar)
  | _ => false

/-- The form passes validation: none of the six fields fails. -/
def formValid (fd : FormData) : Bool :=
  codeFieldOrder.all fun k => !(fieldFails fd k)

theorem lookup_append (k : String) (l₁ l₂ : List (String × String)) :
    List.lookup k (l₁ ++ l₂) = ((List.lookup k l₁).orElse fun _ => List.lookup k l₂) := by
  induction l₁ with
  | nil => simp [List.lookup]
  | cons a t ih => cases h : (k == a.1) <;> simp [List.lookup, h, ih]

theorem validateForm_lookup_firstName (fd : FormData) :
    List.lookup "firstName" (validateForm fd)
      = (if (jsTrim fd.firstName).isEmpty then some "First name is required" else none) := by
  unfold validateForm
  cases h1 : (jsTrim fd.firstName).isEmpty <;>
  cases h2 : (jsTrim fd.lastName).isEmpty <;>
  cases h3 : (jsTrim fd.email).isEmpty <;>
  cases h4 : emailTest fd.email <;>
  cases h5 : (jsTrim fd.subject).isEmpty <;>
  cases h6 : (jsTrim fd.message).isEmpty <;>
  by_cases h7 : ((jsTrim fd.message).length < 10) <;>
  cases h8 : fd.phone.isEmpty <;>
  cases h9 : fd.phone.all isPhoneChar <;>
  simp [h1, h2, h3, h4, h5, h6, h7, h8, h9, List.lookup]

theorem validateForm_lookup_lastName (fd : FormData) :
    List.lookup "lastName" (validateForm fd)
      = (if (jsTrim fd.lastName).isEmpty then some "Last name is required" else none) := by
  unfold validateForm
  cases h1 : (jsTrim fd.firstName).isEmpty <;>
  cases h2 : (jsTrim fd.lastName).isEmpty <;>
  cases h3 : (jsTrim fd.email).isEmpty <;>
  cases h4 : emailTest fd.email <;>
  cases h5 : (jsTrim fd.subject).isEmpty <;>
  cases h6 : (jsTrim fd.message).isEmpty <;>
  by_cases h7 : ((jsTrim fd.message).length < 10) <;>
  cases h8 : fd.phone.isEmpty <;>
  cases h9 : fd.phone.all isPhoneChar <;>
  simp [h1, h2, h3, h4, h5, h6, h7, h8, h9, List.lookup]

theorem validateForm_lookup_email (fd : FormData) :
    List.lookup "email" (validateForm fd)
      = (if (jsTrim fd.email).isEmpty then some "Email address is required"
         else if emailTest fd.email then none else some "Please enter a valid email address") := by
  unfold validateForm
  cases h1 : (jsTrim fd.firstName).isEmpty <;>
  cases h2 : (jsTrim fd.lastName).isEmpty <;>
  cases h3 : (jsTrim fd.email).isEmpty <;>
  cases h4 : emailTest fd.email <;>
  cases h5 : (jsTrim fd.subject).isEmpty <;>
  cases h6 : (jsTrim fd.message).isEmpty <;>
  by_cases h7 : ((jsTrim fd.message).length < 10) <;>
  cases h8 : fd.phone.isEmpty <;>
  cases h9 : fd.phone.all isPhoneChar <;>
  simp [h1, h2, h3, h4, h5, h6, h7, h8, h9, List.lookup]

theorem validateForm_lookup_subject (fd : FormData) :
    List.lookup "subject" (validateForm fd)
      = (if (jsTrim fd.subject).isEmpty then some "Subject is required" else none) := by
  unfold validateForm
  cases h1 : (jsTrim fd.firstName).isEmpty <;>
  cases h2 : (jsTrim fd.lastName).isEmpty <;>
  cases h3 : (jsTrim fd.email).isEmpty <;>
  cases h4 : emailTest fd.email <;>
  cases h5 : (jsTrim fd.subject).isEmpty <;>
  cases h6 : (jsTrim fd.message).isEmpty <;>
  by_cases h7 : ((jsTrim fd.message).length < 10) <;>
  cases h8 : fd.phone.isEmpty <;>
  cases h9 : fd.phone.all isPhoneChar <;>
  simp [h1, h2, h3, h4, h5, h6, h7, h8, h9, List.lookup]

theorem validateForm_lookup_message (fd : FormData) :
    List.lookup "message" (validateForm fd)
      = (if (jsTrim fd.message).isEmpty then some "Message is required"
         else if (jsTrim fd.message).length < 10 then some "Message must be at least 10 characters long" else none) := by
  unfold validateForm
  cases h1 : (jsTrim fd.firstName).isEmpty <;>
  cases h2 : (jsTrim fd.lastName).isEmpty <;>
  cases h3 : (jsTrim fd.email).isEmpty <;>
  cases h4 : emailTest fd.email <;>
  cases h5 : (jsTrim fd.subject).isEmpty <;>
  cases h6 : (jsTrim fd.message).isEmpty <;>
  by_cases h7 : ((jsTrim fd.message).length < 10) <;>
  cases h8 : fd.phone.isEmpty <;>
  cases h9 : fd.phone.all isPhoneChar <;>
  simp [h1, h2, h3, h4, h5, h6, h7, h8, h9, List.lookup]

theorem validateForm_lookup_phone (fd : FormData) :
    List.lookup "phone" (validateForm fd)
      = (if fd.phone.isEmpty then none
         else if fd.phone.all isPhoneChar then none else some "Please enter a valid phone number") := by
  unfold validateForm
  cases h1 : (jsTrim fd.firstName).isEmpty <;>
  cases h2 : (jsTrim fd.lastName).isEmpty <;>
  cases h3 : (jsTrim fd.email).isEmpty <;>
  cases h4 : emailTest fd.email <;>
  cases h5 : (jsTrim fd.subject).isEmpty <;>
  cases h6 : (jsTrim fd.message).isEmpty <;>
  by_cases h7 : ((jsTrim fd.message).length < 10) <;>
  cases h8 : fd.phone.isEmpty <;>
  cases h9 : fd.phone.all isPhoneChar <;>
  simp [h1, h2, h3, h4, h5, h6, h7, h8, h9, List.lookup]

theorem validateForm_map_fst (fd : FormData) :
    (validateForm fd).map Prod.fst = codeFieldOrder.filter (fieldFails fd) := by
  have e1 : fieldFails fd "firstName" = (jsTrim fd.firstName).isEmpty := rfl
  have e2 : fieldFails fd "lastName" = (jsTrim fd.lastName).isEmpty := rfl
  have e3 : fieldFails fd "email" = ((jsTrim fd.email).isEmpty || !(emailTest fd.email)) := rfl
  have e4 : fieldFails fd "subject" = (jsTrim fd.subject).isEmpty := rfl
  have e5 : fieldFails fd "message"
      = ((jsTrim fd.message).isEmpty || decide ((jsTrim fd.message).length < 10)) := rfl
  have e6 : fieldFails fd "phone" = (!(fd.phone.isEmpty) && !(fd.phone.all isPhoneChar)) := rfl
  unfold validateForm codeFieldOrder
  cases h1 : (jsTrim fd.firstName).isEmpty <;>
  cases h2 : (jsTrim fd.lastName).isEmpty <;>
  cases h3 : (jsTrim fd.email).isEmpty <;>
  cases h4 : emailTest fd.email <;>
  cases h5 : (jsTrim fd.subject).isEmpty <;>
  cases h6 : (jsTrim fd.message).isEmpty <;>
  by_cases h7 : ((jsTrim fd.message).length < 10) <;>
  cases h8 : fd.phone.isEmpty <;>
  cases h9 : fd.phone.all isPhoneChar <;>
  simp [List.filter, e1, e2, e3, e4, e5, e6, h1, h2, h3, h4, h5, h6, h7, h8, h9]

theorem validateForm_eq_nil_iff (fd : FormData) :
    validateForm fd = [] ↔ formValid fd = true := by
  have hmap : validateForm fd = [] ↔ (validateForm fd).map Prod.fst = [] := by
    simp
  rw [hmap, validateForm_map_fst, List.filter_eq_nil_iff]
  unfold formValid
  simp [List.all_eq_true]

/-- C1.  The validator produces exactly the reference error map:
`firstName`, `lastName`, `subject` carry the `Required` message iff the
trimmed value is empty; `email` carries `Required` iff trimmed-empty and
otherwise `InvalidFormat` iff it fails the loose email shape
`[^\s@]+@[^\s@]+\.[^\s@]+`; `message` carries `Required` iff
trimmed-empty and otherwise `TooShort` iff its trimmed length is below
10; `phone` carries `InvalidFormat` iff it is non-empty and contains a
character outside digits, whitespace, hyphen, plus and parentheses; no
key outside the six fields ever appears; and the map is empty iff every
field passes. -/
theorem c1_validator_reference_rules (fd : FormData) :
    (List.lookup "firstName" (validateForm fd)
      = (if (jsTrim fd.firstName).isEmpty then some "First name is required" else none))
  ∧ (List.lookup "lastName" (validateForm fd)
      = (if (jsTrim fd.lastName).isEmpty then some "Last name is required" else none))
  ∧ (List.lookup "email" (validateForm fd)
      = (if (jsTrim fd.email).isEmpty then some "Email address is required"
         else if emailTest fd.email then none else some "Please enter a valid email address"))
  ∧ (List.lookup "subject" (validateForm fd)
      = (if (jsTrim fd.subject).isEmpty then some "Subject is required" else none))
  ∧ (List.lookup "message" (validateForm fd)
      = (if (jsTrim fd.message).isEmpty then some "Message is required"
         else if (jsTrim fd.message).length < 10 then some "Message must be at least 10 characters long" else none))
  ∧ (List.lookup "phone" (validateForm fd)
      = (if fd.phone.isEmpty then none
         else if fd.phone.all isPhoneChar then none else some "Please enter a valid phone number"))
  ∧ (∀ k ∈ (validateForm fd).map Prod.fst, k ∈ codeFieldOrder)
  ∧ (validateForm fd = [] ↔ formValid fd = true) :=
  ⟨validateForm_lookup_firstName fd, validateForm_lookup_lastName fd,
   validateForm_lookup_email fd, validateForm_lookup_subject fd,
   validateForm_lookup_message fd, validateForm_lookup_phone fd,
   fun k hk => by
     rw [validateForm_map_fst] at hk
     exact (List.mem_filter.mp hk).1,
   validateForm_eq_nil_iff fd⟩

/-! ## The accessible dropdown (CustomSelect, src/unnamed/part_002)

The component state is `isOpen` / `focusedIndex` (a JS number,
initially `-1`).  The `options` array and the currently committed
`value` are props.  DOM side effects (the `onChange` commit, moving
keyboard focus back to the trigger) are recorded as an effect list.
A transition returns `none` exactly when the source would throw a
TypeError (reading `.value` of `options[focusedIndex]` when that index
is out of range, `handleKeyDown` Enter/Space branch). -/

/-- A `{value, label}` dropdown option. -/
structure SelectOption where
  value : String
  label : String
  deriving DecidableEq, Repr

/-- The component state of CustomSelect: `useState(false)` and
`useState(-1)` (src/unnamed/part_002 lines 30-31). -/
structure SelectState where
  isOpen : Bool
  focusedIndex : Int
  deriving DecidableEq, Repr

/-- The initial state of a freshly mounted CustomSelect. -/
def initialSelectState : SelectState :=
  { isOpen := false, focusedIndex := -1 }

/-- The user events the component handles: the trigger click
(`handleToggle`), the keys of `handleKeyDown` (`otherKey` is any key
the switch ignores), clicking an option, and hovering an option. -/
inductive SelectEvent
  | toggle
  | enterKey
  | spaceKey
  | escapeKey
  | arrowDown
  | arrowUp
  | homeKey
  | endKey
  | otherKey
  | optionClick (i : Nat)
  | optionMouseEnter (i : Nat)
  deriving DecidableEq, Repr

/-- Observable side effects of a transition: committing a value through
the `onChange` prop, and moving keyboard focus back to the trigger.
`announce` is live-region text; the CustomSelect of part_002 never
emits it (it keeps no announcement state). -/
inductive SelectEffect
  | commit (v : String)
  | focusTrigger
  | announce (t : String)
  deriving DecidableEq, Repr

/-- JavaScript `Array.prototype.findIndex`: index of the first match,
`-1` when none. -/
def findIndexJS (p : SelectOption → Bool) (l : List SelectOption) : Int :=
  match l.findIdx? p with
  | some i => (i : Int)
  | none => -1

/-- The index `handleToggle` focuses when opening
(`selectedIndex >= 0 ? selectedIndex : 0`, part_002 lines 45-46). -/
def selectedOr0 (options : List SelectOption) (value : String) : Int :=
  let si := findIndexJS (fun o => o.value == value) options
  if 0 ≤ si then si else 0

/-- `handleToggle` (part_002 lines 42-48): flips `isOpen`; when the
pre-toggle state was closed, focuses the selected option or index 0. -/
def doToggle (options : List SelectOption) (value : String) (s : SelectState) :
    SelectState × List SelectEffect :=
  if s.isOpen then ({ isOpen := false, focusedIndex := s.focusedIndex }, [])
  else ({ isOpen := true, focusedIndex := selectedOr0 options value }, [])

/-- `handleSelect` (part_002 lines 50-54): commit the value through
`onChange`, close, and refocus the trigger. -/
def doSelect (v : String) (s : SelectState) : SelectState × List SelectEffect :=
  ({ isOpen := false, focusedIndex := s.focusedIndex },
   [SelectEffect.commit v, SelectEffect.focusTrigger])

/-- One transition of the CustomSelect of src/unnamed/part_002:
`handleToggle` for the trigger click, `handleKeyDown` for keys, and
the option `onClick` / `onMouseEnter` handlers (which only exist while
the listbox is rendered, i.e. while open and for indices below
`options.length`).  Returns `none` when the source would throw
(`options[focusedIndex].value` with `focusedIndex` out of range). -/
def selectStep (options : List SelectOption) (value : String) (s : SelectState) :
    SelectEvent → Option (SelectState × List SelectEffect)
  | SelectEvent.toggle => some (doToggle options value s)
  | SelectEvent.enterKey =>
      if s.isOpen = true ∧ 0 ≤ s.focusedIndex then
        match options.get? s.focusedIndex.toNat with
        | some o => some (doSelect o.value s)
        | none => none
      else some (doToggle options value s)
  | SelectEvent.spaceKey =>
      if s.isOpen = true ∧ 0 ≤ s.focusedIndex then
        match options.get? s.focusedIndex.toNat with
        | some o => some (doSelect o.value s)
        | none => none
      else some (doToggle options value s)
  | SelectEvent.escapeKey =>
      if s.isOpen then
        some ({ isOpen := false, focusedIndex := s.focusedIndex }, [SelectEffect.focusTrigger])
      else some (s, [])
  | SelectEvent.arrowDown =>
      if s.isOpen then
        some ({ isOpen := s.isOpen,
                focusedIndex := min (s.focusedIndex + 1) ((options.length : Int) - 1) }, [])
      else some ({ isOpen := true, focusedIndex := 0 }, [])
  | SelectEvent.arrowUp =>
      if s.isOpen then
        some ({ isOpen := s.isOpen, focusedIndex := max (s.focusedIndex - 1) 0 }, [])
      else some (s, [])
  | SelectEvent.homeKey =>
      if s.isOpen then some ({ isOpen := s.isOpen, focusedIndex := 0 }, [])
      else some (s, [])
  | SelectEvent.endKey =>
      if s.isOpen then
        some ({ isOpen := s.isOpen, focusedIndex := (options.length : Int) - 1 }, [])
      else some (s, [])
  | SelectEvent.otherKey => some (s, [])
  | SelectEvent.optionClick i =>
      if s.isOpen = true ∧ i < options.length then
        some (doSelect (options.getD i { value := "", label := "" }).value s)
      else some (s, [])
  | SelectEvent.optionMouseEnter i =>
      if s.isOpen = true ∧ i < options.length then
        some ({ isOpen := s.isOpen, focusedIndex := (i : Int) }, [])
      else some (s, [])

/-- States a CustomSelect instance can actually be in: the initial state
and everything `selectStep` reaches from it.  The committed `value` prop
may change between steps (the parent re-renders after `onChange`), so
each step is taken with an arbitrary value. -/
inductive ReachableSelect (options : List SelectOption) : SelectState → Prop
  | init : ReachableSelect options initialSelectState
  | step (value : String) (e : SelectEvent) (s s' : SelectState)
      (effs : List SelectEffect) :
      ReachableSelect options s →
      selectStep options value s e = some (s', effs) →
      ReachableSelect options s'

theorem findIdx?_lt_length {p : SelectOption → Bool} :
    ∀ {l : List SelectOption} {i : Nat}, List.findIdx? p l = some i → i < l.length := by
  intro l
  induction l with
  | nil => intro i h; simp [List.findIdx?] at h
  | cons a t ih =>
      intro i h
      rw [List.findIdx?_cons] at h
      by_cases hp : p a = true
      · rw [if_pos hp] at h
        cases h
        simp
      · rw [if_neg hp] at h
        simp only [List.findIdx?_start_succ, Option.map_eq_some'] at h
        obtain ⟨j, hj, rfl⟩ := h
        have := ih hj
        simp
        omega

theorem findIndexJS_lower (p : SelectOption → Bool) (l : List SelectOption) :
    -1 ≤ findIndexJS p l := by
  unfold findIndexJS
  cases h : l.findIdx? p with
  | none => exact le_refl _
  | some i => show (-1 : Int) ≤ (i : Int); omega

theorem findIndexJS_upper (p : SelectOption → Bool) (l : List SelectOption) :
    findIndexJS p l ≤ (l.length : Int) - 1 ∨ findIndexJS p l = -1 := by
  unfold findIndexJS
  cases h : l.findIdx? p with
  | none => right; rfl
  | some i =>
      left
      have := findIdx?_lt_length h
      show (i : Int) ≤ (l.length : Int) - 1
      omega



theorem selectedOr0_bounds (options : List SelectOption) (value : String)
    (hne : options ≠ []) :
    0 ≤ selectedOr0 options value ∧ selectedOr0 options value ≤ (options.length : Int) - 1 := by
  have hlen : 0 < options.length := List.length_pos.mpr hne
  have h1 := findIndexJS_lower (fun o => o.value == value) options
  have h2 := findIndexJS_upper (fun o => o.value == value) options
  unfold selectedOr0
  by_cases h : 0 ≤ findIndexJS (fun o => o.value == value) options
  · rw [if_pos h]
    rcases h2 with h2 | h2 <;> omega
  · rw [if_neg h]
    omega

theorem selectStep_preserves (options : List SelectOption) (value : String)
    (s s' : SelectState) (e : SelectEvent) (effs : List SelectEffect)
    (hne : options ≠ [])
    (hlo : -1 ≤ s.focusedIndex) (hhi : s.focusedIndex ≤ (options.length : Int) - 1)
    (h : selectStep options value s e = some (s', effs)) :
    -1 ≤ s'.focusedIndex ∧ s'.focusedIndex ≤ (options.length : Int) - 1 := by
  have hlen : 0 < options.length := List.length_pos.mpr hne
  have hsel := selectedOr0_bounds options value hne
  cases e <;> simp only [selectStep, doToggle, doSelect] at h
  case toggle =>
    split at h <;> cases h <;> refine ⟨?_, ?_⟩ <;> (try simp only []) <;> omega
  case enterKey =>
    split at h
    · split at h
      · cases h; exact ⟨hlo, hhi⟩
      · exact Option.noConfusion h
    · split at h <;> cases h <;> refine ⟨?_, ?_⟩ <;> (try simp only []) <;> omega
  case spaceKey =>
    split at h
    · split at h
      · cases h; exact ⟨hlo, hhi⟩
      · exact Option.noConfusion h
    · split at h <;> cases h <;> refine ⟨?_, ?_⟩ <;> (try simp only []) <;> omega
  case escapeKey =>
    split at h <;> cases h <;> exact ⟨hlo, hhi⟩
  case arrowDown =>
    split at h <;> cases h <;> refine ⟨?_, ?_⟩ <;> (try simp only []) <;> omega
  case arrowUp =>
    split at h <;> cases h <;> refine ⟨?_, ?_⟩ <;> (try simp only []) <;> omega
  case homeKey =>
    split at h <;> cases h <;> refine ⟨?_, ?_⟩ <;> (try simp only []) <;> omega
  case endKey =>
    split at h <;> cases h <;> refine ⟨?_, ?_⟩ <;> (try simp only []) <;> omega
  case otherKey =>
    cases h; exact ⟨hlo, hhi⟩
  case optionClick i =>
    split at h <;> cases h <;> exact ⟨hlo, hhi⟩
  case optionMouseEnter i =>
    split at h
    · cases h
      rename_i hg
      refine ⟨?_, ?_⟩ <;> (try simp only []) <;> omega
    · cases h; exact ⟨hlo, hhi⟩

theorem selectStep_total (options : List SelectOption) (value : String)
    (s : SelectState) (e : SelectEvent)
    (hlo : -1 ≤ s.focusedIndex) (hhi : s.focusedIndex ≤ (options.length : Int) - 1) :
    ∃ r, selectStep options value s e = some r := by
  cases e <;> simp only [selectStep, doToggle, doSelect]
  case enterKey =>
    split
    · rename_i hg
      cases hget : options.get? s.focusedIndex.toNat with
      | none =>
          rw [List.get?_eq_none] at hget
          omega
      | some o => exact ⟨_, rfl⟩
    · split <;> exact ⟨_, rfl⟩
  case spaceKey =>
    split
    · rename_i hg
      cases hget : options.get? s.focusedIndex.toNat with
      | none =>
          rw [List.get?_eq_none] at hget
          omega
      | some o => exact ⟨_, rfl⟩
    · split <;> exact ⟨_, rfl⟩
  all_goals first
    | exact ⟨_, rfl⟩
    | (split <;> exact ⟨_, rfl⟩)

theorem reachable_invariant (options : List SelectOption) (s : SelectState)
    (hne : options ≠ []) (hr : ReachableSelect options s) :
    -1 ≤ s.focusedIndex ∧ s.focusedIndex ≤ (options.length : Int) - 1 := by
  induction hr with
  | init =>
      have hlen : 0 < options.length := List.length_pos.mpr hne
      constructor
      · exact le_refl _
      · show (-1 : Int) ≤ (options.length : Int) - 1
        omega
  | step value e s s' effs hr hstep ih =>
      exact selectStep_preserves options value s s' e effs hne ih.1 ih.2 hstep



/-- The urgency option list of AccessibleForm.tsx (lines 42-47), the
option list the CustomSelect is mounted with. -/
def urgencyOptions : List SelectOption :=
  [ { value := "low", label := "Low - Response within 5 business days" },
    { value := "medium", label := "Medium - Response within 2 business days" },
    { value := "high", label := "High - Response within 24 hours" },
    { value := "urgent", label := "Urgent - Response within 4 hours" } ]

/-- C2 counterexample.  With options `[low, medium, high, urgent]` and
value `"medium"` (selected index 1), pressing ArrowDown while Closed
opens the dropdown with `focusedIndex = 0`, not 1: the ArrowDown branch
of `handleKeyDown` always calls `setFocusedIndex(0)`. -/
theorem c2_counterexample :
    findIndexJS (fun o => o.value == "medium") urgencyOptions = 1
    ∧ selectStep urgencyOptions "medium" initialSelectState SelectEvent.arrowDown
        = some ({ isOpen := true, focusedIndex := 0 }, [])
    ∧ ((0 : Int) ≠ 1) :=
  ⟨by decide, by decide, by decide⟩

/-- C2 amended.  Opening a Closed dropdown via toggle — or via
Enter/Space, which fall through to `handleToggle` — sets `focusedIndex`
to the index of the currently selected option, or 0 if none is selected
(the last two conjuncts unfold `selectedOr0` against `findIdx?`);
opening via ArrowDown always sets `focusedIndex` to 0, regardless of
the current selection. -/
theorem c2_amended (options : List SelectOption) (value : String)
    (s : SelectState) (h : s.isOpen = false) :
    selectStep options value s SelectEvent.toggle
      = some ({ isOpen := true, focusedIndex := selectedOr0 options value }, [])
  ∧ selectStep options value s SelectEvent.enterKey
      = some ({ isOpen := true, focusedIndex := selectedOr0 options value }, [])
  ∧ selectStep options value s SelectEvent.spaceKey
      = some ({ isOpen := true, focusedIndex := selectedOr0 options value }, [])
  ∧ selectStep options value s SelectEvent.arrowDown
      = some ({ isOpen := true, focusedIndex := 0 }, [])
  ∧ (∀ i : Nat, List.findIdx? (fun o => o.value == value) options = some i →
      selectedOr0 options value = (i : Int))
  ∧ (List.findIdx? (fun o => o.value == value) options = none →
      selectedOr0 options value = 0) := by
  refine ⟨?_, ?_, ?_, ?_, ?_, ?_⟩
  · simp [selectStep, doToggle, h]
  · simp [selectStep, doToggle, h]
  · simp [selectStep, doToggle, h]
  · simp [selectStep, h]
  · intro i hi
    unfold selectedOr0 findIndexJS
    rw [hi]
    simp
  · intro hn
    unfold selectedOr0 findIndexJS
    rw [hn]
    simp

/-- C7.  While the dropdown is Open over a non-empty option list,
ArrowDown moves `focusedIndex` to `min (focusedIndex+1) (len-1)` and
ArrowUp to `max (focusedIndex-1) 0` — no wraparound at either end, and
in particular ArrowDown at `len-1` stays at `len-1` (last conjunct) —
while Home and End jump to 0 and `len-1`; the dropdown stays Open in
all four cases. -/
theorem c7_open_navigation (options : List SelectOption) (value : String)
    (s : SelectState) (ho : s.isOpen = true) (hne : options ≠ []) :
    selectStep options value s SelectEvent.arrowDown
      = some ({ isOpen := true,
                focusedIndex := min (s.focusedIndex + 1) ((options.length : Int) - 1) }, [])
  ∧ selectStep options value s SelectEvent.arrowUp
      = some ({ isOpen := true, focusedIndex := max (s.focusedIndex - 1) 0 }, [])
  ∧ selectStep options value s SelectEvent.homeKey
      = some ({ isOpen := true, focusedIndex := 0 }, [])
  ∧ selectStep options value s SelectEvent.endKey
      = some ({ isOpen := true, focusedIndex := (options.length : Int) - 1 }, [])
  ∧ (s.focusedIndex = (options.length : Int) - 1 →
      min (s.focusedIndex + 1) ((options.length : Int) - 1) = (options.length : Int) - 1) := by
  refine ⟨?_, ?_, ?_, ?_, ?_⟩ <;> (try simp [selectStep, ho])
  intro hend
  omega

/-- C10.  On a Closed dropdown, ArrowUp, Home, End and Escape return
exactly the same state with no effects (nothing opens, `focusedIndex`
is untouched, nothing is committed); and any event that results in an
Open state from Closed is toggle, Enter, Space or ArrowDown. -/
theorem c10_closed_inert (options : List SelectOption) (value : String)
    (s : SelectState) (h : s.isOpen = false) :
    selectStep options value s SelectEvent.arrowUp = some (s, [])
  ∧ selectStep options value s SelectEvent.homeKey = some (s, [])
  ∧ selectStep options value s SelectEvent.endKey = some (s, [])
  ∧ selectStep options value s SelectEvent.escapeKey = some (s, [])
  ∧ (∀ e s' effs, selectStep options value s e = some (s', effs) →
      s'.isOpen = true →
      e = SelectEvent.toggle ∨ e = SelectEvent.enterKey ∨
      e = SelectEvent.spaceKey ∨ e = SelectEvent.arrowDown) := by
  refine ⟨by simp [selectStep, h], by simp [selectStep, h],
          by simp [selectStep, h], by simp [selectStep, h], ?_⟩
  intro e s' effs hstep hopen
  cases e
  case toggle => exact Or.inl rfl
  case enterKey => exact Or.inr (Or.inl rfl)
  case spaceKey => exact Or.inr (Or.inr (Or.inl rfl))
  case arrowDown => exact Or.inr (Or.inr (Or.inr rfl))
  all_goals exfalso
  all_goals simp only [selectStep, doToggle, doSelect, h] at hstep
  all_goals simp at hstep
  all_goals try (obtain ⟨rfl, -⟩ := hstep; simp [h] at hopen)

/-- C6 counterexample.  With the empty option list the state
`{isOpen := true, focusedIndex := 0}` is reachable (toggle from the
initial state sets `focusedIndex` to 0 because `findIndex` returns -1),
and pressing Enter there evaluates `options[0].value` with `options`
empty — a TypeError in the source, `none` in the model: the claim
fails for the empty option list. -/
theorem c6_counterexample :
    ReachableSelect [] { isOpen := true, focusedIndex := 0 }
    ∧ selectStep [] "" { isOpen := true, focusedIndex := 0 } SelectEvent.enterKey = none :=
  ⟨ReachableSelect.step "" SelectEvent.toggle initialSelectState
      { isOpen := true, focusedIndex := 0 } [] ReachableSelect.init (by decide),
   by decide⟩

theorem selectStep_commit_mem (options : List SelectOption) (value : String)
    (s s' : SelectState) (e : SelectEvent) (effs : List SelectEffect) (v : String)
    (h : selectStep options value s e = some (s', effs))
    (hv : SelectEffect.commit v ∈ effs) : ∃ o ∈ options, o.value = v := by
  cases e <;> simp only [selectStep, doToggle, doSelect] at h
  case enterKey =>
    split at h
    · rename_i hg
      cases hget : options.get? s.focusedIndex.toNat with
      | none => rw [hget] at h; exact Option.noConfusion h
      | some o =>
          rw [hget] at h
          cases h
          simp at hv
          exact ⟨o, List.get?_mem hget, hv.symm⟩
    · split at h <;> (cases h; simp at hv)
  case spaceKey =>
    split at h
    · rename_i hg
      cases hget : options.get? s.focusedIndex.toNat with
      | none => rw [hget] at h; exact Option.noConfusion h
      | some o =>
          rw [hget] at h
          cases h
          simp at hv
          exact ⟨o, List.get?_mem hget, hv.symm⟩
    · split at h <;> (cases h; simp at hv)
  case optionClick i =>
    split at h
    · rename_i hg
      cases h
      simp at hv
      refine ⟨_, ?_, hv.symm⟩
      rw [List.getElem?_eq_getElem hg.2]
      simp only [Option.getD_some]
      exact List.getElem_mem hg.2
    · cases h; simp at hv
  all_goals (first
    | (cases h; simp at hv)
    | (split at h <;> (cases h; simp at hv)))

/-- C6 amended.  For every NON-EMPTY option list, every reachable
dropdown state and every event, the transition is total (never the
TypeError case), the focused index stays clamped to `[-1, len-1]`, and
every value committed by Enter/Space or an option click is the value of
an option actually in the list (the index used is in range). -/
theorem c6_amended (options : List SelectOption) (value : String)
    (s : SelectState) (e : SelectEvent)
    (hne : options ≠ []) (hr : ReachableSelect options s) :
    (∃ r, selectStep options value s e = some r)
  ∧ (∀ s' effs, selectStep options value s e = some (s', effs) →
      -1 ≤ s'.focusedIndex ∧ s'.focusedIndex ≤ (options.length : Int) - 1)
  ∧ (∀ s' effs v, selectStep options value s e = some (s', effs) →
      SelectEffect.commit v ∈ effs → ∃ o ∈ options, o.value = v) := by
  obtain ⟨hlo, hhi⟩ := reachable_invariant options s hne hr
  refine ⟨selectStep_total options value s e hlo hhi, ?_, ?_⟩
  · intro s' effs h
    exact selectStep_preserves options value s s' e effs hne hlo hhi h
  · intro s' effs v h hv
    exact selectStep_commit_mem options value s s' e effs v h hv

/-- C5 (code evaluation).  The CustomSelect of src/unnamed/part_002
keeps no announcement state at all: no transition ever produces a
live-region announcement effect, contradicting the specified
announcements ("N options available...", "Selected: label",
"Selection cancelled.").  The sibling CustomSelect variant embedded in
NewsletterSection.tsx documents and implements these announcements, so
the spec reflects the repository intent and the cited component omits
it. -/
theorem c5_code_no_announcements (options : List SelectOption) (value : String)
    (s : SelectState) (e : SelectEvent) (s' : SelectState) (effs : List SelectEffect)
    (h : selectStep options value s e = some (s', effs)) (t : String) :
    SelectEffect.announce t ∉ effs := by
  cases e <;> simp only [selectStep, doToggle, doSelect] at h
  case enterKey =>
    split at h
    · cases hget : options.get? s.focusedIndex.toNat with
      | none => rw [hget] at h; exact Option.noConfusion h
      | some o => rw [hget] at h; cases h; simp
    · split at h <;> (cases h; simp)
  case spaceKey =>
    split at h
    · cases hget : options.get? s.focusedIndex.toNat with
      | none => rw [hget] at h; exact Option.noConfusion h
      | some o => rw [hget] at h; cases h; simp
    · split at h <;> (cases h; simp)
  all_goals (first
    | (cases h; simp)
    | (split at h <;> (cases h; simp)))

/-- Witness for C2 amended: with the urgency options and value
"medium", ArrowDown from the initial (closed) state opens with
`focusedIndex = 0`. -/
theorem c2_amended_witness :
    selectStep urgencyOptions "medium" initialSelectState SelectEvent.arrowDown
      = some ({ isOpen := true, focusedIndex := 0 }, []) :=
  (c2_amended urgencyOptions "medium" initialSelectState rfl).2.2.2.1

/-- Witness for C7: ArrowDown at the last index (3) of the urgency
options stays clamped at `min 4 3`. -/
theorem c7_open_navigation_witness :
    selectStep urgencyOptions "medium" { isOpen := true, focusedIndex := 3 } SelectEvent.arrowDown
      = some ({ isOpen := true,
                focusedIndex := min ((3 : Int) + 1) ((urgencyOptions.length : Int) - 1) }, []) :=
  (c7_open_navigation urgencyOptions "medium" { isOpen := true, focusedIndex := 3 } rfl
    (by decide)).1

/-- Witness for C10: ArrowUp on the initial closed state is a no-op. -/
theorem c10_closed_inert_witness :
    selectStep urgencyOptions "medium" initialSelectState SelectEvent.arrowUp
      = some (initialSelectState, []) :=
  (c10_closed_inert urgencyOptions "medium" initialSelectState rfl).1

/-- Witness for C6 amended: on a singleton option list, Enter at the
initial state succeeds (no TypeError case). -/
theorem c6_amended_witness :
    ∃ r, selectStep [{ value := "a", label := "A" }] "a" initialSelectState
      SelectEvent.enterKey = some r :=
  (c6_amended [{ value := "a", label := "A" }] "a" initialSelectState SelectEvent.enterKey
    (by decide) ReachableSelect.init).1

/-- Witness for C5: opening the urgency dropdown from Closed yields the
empty effect list — in particular not the announcement the spec
requires for opening. -/
theorem c5_code_no_announcements_witness :
    selectStep urgencyOptions "medium" initialSelectState SelectEvent.toggle
      = some ({ isOpen := true, focusedIndex := 1 }, [])
    ∧ SelectEffect.announce "4 options available, use arrow keys to navigate."
        ∉ ([] : List SelectEffect) :=
  ⟨by decide,
   c5_code_no_announcements urgencyOptions "medium" initialSelectState SelectEvent.toggle
     { isOpen := true, focusedIndex := 1 } [] (by decide) _⟩

/-! ## Form state store and submission orchestrator
(AccessibleForm.tsx `handleInputChange` lines 84-91 and `handleSubmit`
lines 93-191)

`handleSubmit` is modelled as the ordered list of store writes and
side effects it performs.  The awaited submit stub
(`await new Promise(...)`) is the `invokeSubmit` event; whether it
resolves or rejects is the abstract `submitOk` parameter (the spec
models the collaborator as able to fail; the source guards both
outcomes with try/catch/finally). -/

/-- The `toast` notification kinds used by the orchestrator. -/
inductive NotifKind
  | info
  | success
  | error
  deriving DecidableEq, Repr

/-- One store write or side effect of the orchestrator, in program
order. -/
inductive FormEvent
  | setErrors (m : List (String × String))
  | setSubmitting (b : Bool)
  | notify (msg : String) (kind : NotifKind)
  | invokeSubmit
  | setFormData (fd : FormData)
  | focusField (id : String)
  deriving DecidableEq, Repr

/-- The `fieldLabels` map of `handleSubmit` (lines 140-147), with the
`fieldLabels[field] || field` fallback. -/
def fieldLabel : String → String
  | "firstName" => "First Name"
  | "lastName" => "Last Name"
  | "email" => "Email"
  | "phone" => "Phone"
  | "subject" => "Subject"
  | "message" => "Message"
  | k => k

/-- One bullet line of the aggregated error message (line 151). -/
def errorLine (kv : String × String) : String :=
  "• " ++ fieldLabel kv.1 ++ ": " ++ kv.2

/-- The aggregated failure notification text (lines 149-152). -/
def aggregateMessage (errs : List (String × String)) : String :=
  "Please fix the following " ++ (if errs.length = 1 then "issue" else "issues") ++ ":\n"
  ++ String.intercalate "\n" (errs.map errorLine)

/-- `toast.info` on submission start (line 161). -/
def submittingNotice : String := "Submitting your message..."

/-- `toast.success` on resolution (line 166). -/
def successNotice : String :=
  "Thank you! Your message has been submitted successfully. We will respond according to your selected urgency level."

/-- `toast.error` in the catch branch (line 187). -/
def failureNotice : String :=
  "An error occurred while submitting your message. Please try again or contact us directly."

/-- `handleSubmit` (lines 93-191).  The invalid branch recomputes
`currentErrors` with the verbatim-duplicated validator code (lines
98-126), which on the same `formData` equals `validateForm fd`;
it focuses the first key of the error object and emits exactly one
aggregated `toast.error`.  The valid branch sets the submitting flag,
emits the info toast, awaits the collaborator, on success emits the
success toast, resets the store and focuses the first field, on
rejection emits the failure toast, and finally clears the flag. -/
def handleSubmit (fd : FormData) (submitOk : Bool) : List FormEvent :=
  let newErrors := validateForm fd
  if newErrors.isEmpty then
    [FormEvent.setErrors newErrors, FormEvent.setSubmitting true,
     FormEvent.notify submittingNotice NotifKind.info, FormEvent.invokeSubmit]
    ++ (if submitOk then
          [FormEvent.notify successNotice NotifKind.success,
           FormEvent.setFormData defaultFormData,
           FormEvent.focusField "firstName"]
        else [FormEvent.notify failureNotice NotifKind.error])
    ++ [FormEvent.setSubmitting false]
  else
    let currentErrors := validateForm fd
    FormEvent.setErrors newErrors ::
    ((match currentErrors.map Prod.fst with
      | [] => []
      | f :: _ => [FormEvent.focusField f])
     ++ [FormEvent.notify (aggregateMessage currentErrors) NotifKind.error])

/-- The notifications of a trace, in order. -/
def notifications (tr : List FormEvent) : List (String × NotifKind) :=
  tr.filterMap fun e =>
    match e with
    | FormEvent.notify m k => some (m, k)
    | _ => none

/-- The writes to the `isSubmitting` flag, in order. -/
def submitFlagWrites (tr : List FormEvent) : List Bool :=
  tr.filterMap fun e =>
    match e with
    | FormEvent.setSubmitting b => some b
    | _ => none

/-- The canonical field order named by the spec (section 4.4 step 1).
Modelled from the spec words, for comparison with the order the code
actually uses (`codeFieldOrder`). -/
def specCanonicalOrder : List String :=
  ["firstName", "lastName", "email", "phone", "subject", "message"]

/-- The form fields writable through `handleInputChange`. -/
inductive Field
  | firstName
  | lastName
  | email
  | phone
  | subject
  | message
  deriving DecidableEq, Repr

/-- The string key of a field. -/
def fieldName : Field → String
  | Field.firstName => "firstName"
  | Field.lastName => "lastName"
  | Field.email => "email"
  | Field.phone => "phone"
  | Field.subject => "subject"
  | Field.message => "message"

/-- The `{...prev, [name]: value}` update of the form data. -/
def setTextField (fd : FormData) : Field → List Char → FormData
  | Field.firstName, v => { fd with firstName := v }
  | Field.lastName, v => { fd with lastName := v }
  | Field.email, v => { fd with email := v }
  | Field.phone, v => { fd with phone := v }
  | Field.subject, v => { fd with subject := v }
  | Field.message, v => { fd with message := v }

/-- Read a field value back. -/
def getTextField (fd : FormData) : Field → List Char
  | Field.firstName => fd.firstName
  | Field.lastName => fd.lastName
  | Field.email => fd.email
  | Field.phone => fd.phone
  | Field.subject => fd.subject
  | Field.message => fd.message

/-- JS truthiness of `errors[name]`: the key is present with a
non-empty message. -/
def truthyLookup (m : List (String × String)) (k : String) : Bool :=
  match List.lookup k m with
  | some s => !(s.isEmpty)
  | none => false

/-- The JS object spread `{...prev, [name]: v}`: overwrite the value of
an existing key in place (JS keeps the original key position), append
otherwise. -/
def objSet (m : List (String × String)) (k : String) (v : String) :
    List (String × String) :=
  if (List.lookup k m).isSome then
    m.map fun kv => if kv.1 == k then (kv.1, v) else kv
  else m ++ [(k, v)]

/-- `handleInputChange` (lines 84-91): write the field value; when
`errors[name]` is truthy, overwrite that entry with the EMPTY STRING
(`{...prev, [name]: qq}` with the empty string — the key is not
deleted), otherwise leave the error object alone. -/
def handleInputChange (fd : FormData) (errors : List (String × String))
    (f : Field) (v : List Char) : FormData × List (String × String) :=
  (setTextField fd f v,
   if truthyLookup errors (fieldName f) then objSet errors (fieldName f) "" else errors)



/-- A form whose only failing fields are `subject` (empty) and `phone`
(contains letters): every other field passes validation. -/
def fdSubjectPhone : FormData :=
  { firstName := "Ann".data, lastName := "Lee".data, email := "a@b.co".data,
    phone := "abc".data, subject := [], message := "0123456789".data,
    newsletter := false, contactMethod := "email".data, urgency := "medium".data }

/-- A fully valid form: all required fields pass every rule. -/
def fdValid : FormData :=
  { firstName := "Ann".data, lastName := "Lee".data, email := "a@b.co".data,
    phone := [], subject := "Hi".data, message := "0123456789".data,
    newsletter := false, contactMethod := "email".data, urgency := "medium".data }

/-- C3 counterexample.  On a form failing exactly `subject` and
`phone`, the orchestrator focuses `subject` — the error object is
populated in the order firstName, lastName, email, subject, message,
phone, so `Object.keys(currentErrors)[0]` is `"subject"` — while the
claimed canonical order (firstName, lastName, email, PHONE, subject,
message) would put `phone` first; `phone` is never focused. -/
theorem c3_counterexample :
    (validateForm fdSubjectPhone).map Prod.fst = ["subject", "phone"]
    ∧ FormEvent.focusField "subject" ∈ handleSubmit fdSubjectPhone true
    ∧ FormEvent.focusField "phone" ∉ handleSubmit fdSubjectPhone true
    ∧ (specCanonicalOrder.filter (fieldFails fdSubjectPhone)).head? = some "phone" :=
  ⟨by decide, by decide, by decide, by decide⟩

/-- C3 amended.  For every form that fails validation the orchestrator
emits exactly one notification — the aggregated `toast.error` built
from every entry of the error map — never invokes the external submit
collaborator, never touches the submitting flag, and focuses the first
invalid field in the order the code populates the error object:
firstName, lastName, email, subject, message, phone (not the order the
spec claims, which places phone fourth). -/
theorem c3_amended (fd : FormData) (submitOk : Bool) (h : validateForm fd ≠ []) :
    notifications (handleSubmit fd submitOk)
      = [(aggregateMessage (validateForm fd), NotifKind.error)]
  ∧ FormEvent.invokeSubmit ∉ handleSubmit fd submitOk
  ∧ (∀ b : Bool, FormEvent.setSubmitting b ∉ handleSubmit fd submitOk)
  ∧ (∃ k, (codeFieldOrder.filter (fieldFails fd)).head? = some k
        ∧ FormEvent.focusField k ∈ handleSubmit fd submitOk) := by
  have hie : (validateForm fd).isEmpty = false := by
    cases hv : validateForm fd with
    | nil => exact absurd hv h
    | cons a t => rfl
  have hkeys := validateForm_map_fst fd
  cases hm : (validateForm fd).map Prod.fst with
  | nil =>
      exact absurd (List.map_eq_nil_iff.mp hm) h
  | cons f t =>
      refine ⟨?_, ?_, ?_, ⟨f, ?_, ?_⟩⟩
      · simp [handleSubmit, hie, hm, notifications]
      · simp [handleSubmit, hie, hm]
      · intro b; simp [handleSubmit, hie, hm]
      · rw [← hkeys, hm]; rfl
      · simp [handleSubmit, hie, hm]



/-- C8.  For every fully valid form, a successful submission performs
exactly: clear the error map, set `submitting`, emit the info toast,
invoke the collaborator, emit the success toast, reset the store to the
default `FormData` (all text fields empty, `newsletter = false`,
`contactMethod = "email"`, `urgency = "medium"` — second conjunct), move
focus back to the first field, and clear `submitting`. -/
theorem c8_success (fd : FormData) (h : validateForm fd = []) :
    handleSubmit fd true
      = [FormEvent.setErrors [], FormEvent.setSubmitting true,
         FormEvent.notify submittingNotice NotifKind.info, FormEvent.invokeSubmit,
         FormEvent.notify successNotice NotifKind.success,
         FormEvent.setFormData defaultFormData, FormEvent.focusField "firstName",
         FormEvent.setSubmitting false]
  ∧ defaultFormData
      = { firstName := [], lastName := [], email := [], phone := [], subject := [],
          message := [], newsletter := false, contactMethod := "email".data,
          urgency := "medium".data } :=
  ⟨by simp [handleSubmit, h], rfl⟩

/-- C9.  For every submission that passes validation, the submitting
flag is written `true` strictly before the collaborator is invoked, the
trace ends with the `finally` write of `false`, and the flag writes are
exactly `[true, false]` whether the collaborator succeeds or fails —
the flag is never left at `true`. -/
theorem c9_submitting_flag (fd : FormData) (submitOk : Bool) (h : validateForm fd = []) :
    (∃ i j, i < j
      ∧ (handleSubmit fd submitOk).get? i = some (FormEvent.setSubmitting true)
      ∧ (handleSubmit fd submitOk).get? j = some FormEvent.invokeSubmit)
  ∧ (handleSubmit fd submitOk).getLast? = some (FormEvent.setSubmitting false)
  ∧ submitFlagWrites (handleSubmit fd submitOk) = [true, false] := by
  cases submitOk with
  | false =>
      have e : handleSubmit fd false
          = [FormEvent.setErrors [], FormEvent.setSubmitting true,
             FormEvent.notify submittingNotice NotifKind.info, FormEvent.invokeSubmit,
             FormEvent.notify failureNotice NotifKind.error,
             FormEvent.setSubmitting false] := by
        simp [handleSubmit, h]
      rw [e]
      exact ⟨⟨1, 3, by omega, rfl, rfl⟩, rfl, rfl⟩
  | true =>
      have e : handleSubmit fd true
          = [FormEvent.setErrors [], FormEvent.setSubmitting true,
             FormEvent.notify submittingNotice NotifKind.info, FormEvent.invokeSubmit,
             FormEvent.notify successNotice NotifKind.success,
             FormEvent.setFormData defaultFormData, FormEvent.focusField "firstName",
             FormEvent.setSubmitting false] := by
        simp [handleSubmit, h]
      rw [e]
      exact ⟨⟨1, 3, by omega, rfl, rfl⟩, rfl, rfl⟩

theorem lookup_map_set (m : List (String × String)) (k v : String)
    (h : (List.lookup k m).isSome) :
    List.lookup k (m.map fun kv => if kv.1 == k then (kv.1, v) else kv) = some v := by
  induction m with
  | nil => simp [List.lookup] at h
  | cons a t ih =>
      obtain ⟨a1, a2⟩ := a
      by_cases hk : k = a1
      · have hb : (a1 == k) = true := by simp [hk]
        simp only [List.map_cons]
        rw [if_pos hb]
        simp [List.lookup, hk]
      · have hb : ¬ ((a1 == k) = true) := by
          simp
          exact fun hx => hk hx.symm
        have hbk : (k == a1) = false := by simp [hk]
        simp only [List.map_cons]
        rw [if_neg hb]
        simp only [List.lookup, hbk] at h ⊢
        exact ih h


/-- C4 counterexample.  `setField("firstName", "J")` on an error map
containing a `firstName` entry does NOT remove the entry: the code
writes `{...prev, firstName: the-empty-string}`, so afterwards the map still has an
entry for `firstName` (mapping to the empty string), not no entry. -/
theorem c4_counterexample :
    List.lookup "firstName"
        ((handleInputChange defaultFormData [("firstName", "First name is required")]
          Field.firstName "J".data).2)
      = some ""
    ∧ some "" ≠ (none : Option String) :=
  ⟨by decide, by decide⟩

theorem objSet_lookup (m : List (String × String)) (k v : String)
    (h : (List.lookup k m).isSome) :
    List.lookup k (objSet m k v) = some v := by
  unfold objSet
  rw [if_pos h]
  exact lookup_map_set m k v h

/-- C4 amended.  `setField(name, value)` sets the field value and,
when `name` currently has a truthy (non-empty) error entry, overwrites
that entry with the empty string — the key remains, but afterwards
`name` has no truthy error message; when `name` has no entry the map is
returned unchanged, and repeating the call is a no-op on the error
map (idempotence). -/
theorem c4_amended (fd : FormData) (errors : List (String × String))
    (f : Field) (v : List Char) :
    getTextField (handleInputChange fd errors f v).1 f = v
  ∧ truthyLookup (handleInputChange fd errors f v).2 (fieldName f) = false
  ∧ (List.lookup (fieldName f) errors = none →
      (handleInputChange fd errors f v).2 = errors)
  ∧ (∀ s, List.lookup (fieldName f) errors = some s → s ≠ "" →
      (handleInputChange fd errors f v).2 = objSet errors (fieldName f) "")
  ∧ (handleInputChange (handleInputChange fd errors f v).1
        (handleInputChange fd errors f v).2 f v).2
      = (handleInputChange fd errors f v).2 := by
  have htr : ∀ r : List (String × String),
      truthyLookup r (fieldName f) = false →
      (if truthyLookup r (fieldName f) then objSet r (fieldName f) "" else r) = r := by
    intro r hr
    rw [hr]
    simp
  refine ⟨?_, ?_, ?_, ?_, ?_⟩
  · cases f <;> rfl
  · unfold handleInputChange
    cases ht : truthyLookup errors (fieldName f) with
    | false =>
        simp only [Bool.false_eq_true, if_false]
        exact ht
    | true =>
        simp only [if_true]
        unfold truthyLookup at ht ⊢
        cases hl : List.lookup (fieldName f) errors with
        | none => rw [hl] at ht; simp at ht
        | some s =>
            rw [objSet_lookup errors (fieldName f) "" (by rw [hl]; rfl)]
            rfl
  · intro hnone
    unfold handleInputChange truthyLookup
    rw [hnone]
    rfl
  · intro s hs hne
    unfold handleInputChange truthyLookup
    rw [hs]
    have hemp : s.isEmpty = false := by
      cases he : s.isEmpty
      · rfl
      · exact absurd ((String.isEmpty_iff s).mp he) hne
    simp [hemp]
  · -- second application is a no-op on the error map
    have h2 : truthyLookup (handleInputChange fd errors f v).2 (fieldName f) = false := by
      unfold handleInputChange
      cases ht : truthyLookup errors (fieldName f) with
      | false =>
          simp only [Bool.false_eq_true, if_false]
          exact ht
      | true =>
          simp only [if_true]
          unfold truthyLookup at ht ⊢
          cases hl : List.lookup (fieldName f) errors with
          | none => rw [hl] at ht; simp at ht
          | some s =>
              rw [objSet_lookup errors (fieldName f) "" (by rw [hl]; rfl)]
              rfl
    show (if truthyLookup (handleInputChange fd errors f v).2 (fieldName f) then _ else _) = _
    rw [h2]
    simp

/-- Witness for C1: on the default (all-empty) form, `firstName` carries
the `Required` message. -/
theorem c1_validator_reference_rules_witness :
    List.lookup "firstName" (validateForm defaultFormData) = some "First name is required" := by
  have h := (c1_validator_reference_rules defaultFormData).1
  rw [h]
  decide

/-- Witness for C3 amended: on the subject+phone-failing form, exactly
the aggregated error notification is emitted. -/
theorem c3_amended_witness :
    notifications (handleSubmit fdSubjectPhone true)
      = [(aggregateMessage (validateForm fdSubjectPhone), NotifKind.error)] :=
  (c3_amended fdSubjectPhone true (by decide)).1

/-- Witness for C8: the concrete valid form yields the full successful
trace. -/
theorem c8_success_witness :
    handleSubmit fdValid true
      = [FormEvent.setErrors [], FormEvent.setSubmitting true,
         FormEvent.notify submittingNotice NotifKind.info, FormEvent.invokeSubmit,
         FormEvent.notify successNotice NotifKind.success,
         FormEvent.setFormData defaultFormData, FormEvent.focusField "firstName",
         FormEvent.setSubmitting false] :=
  (c8_success fdValid (by decide)).1

/-- Witness for C9: on the concrete valid form with a failing
collaborator, the flag writes are exactly `[true, false]`. -/
theorem c9_submitting_flag_witness :
    submitFlagWrites (handleSubmit fdValid false) = [true, false] :=
  (c9_submitting_flag fdValid false (by decide)).2.2

/-- Witness for C4 amended: clearing a field with no existing error
entry leaves the (empty) error map unchanged. -/
theorem c4_amended_witness :
    (handleInputChange defaultFormData [] Field.firstName []).2 = [] :=
  (c4_amended defaultFormData [] Field.firstName []).2.2.1 rfl

end AriaForm
